import Mathlib

/-!
Verification of the Cretonne base instruction-set description
(`meta/cretonne/base.py`) against its specification.

The data file `base.py` is embedded directly.  The framework it exercises
(`TypeVar`, `Operand`, `Instruction`, `InstructionGroup`, the immediate and
entity catalogs) is not part of the given source slice, so those parts are
modelled from the specification's contract, as noted on each definition.
-/

namespace Cretonne

/-- Modelled from the spec: the capability set of a `TypeVar` —
`{allows_int, allows_float, allows_bool}` together with the shape flags
`allows_scalar` / `allows_simd` (spec section 3).  The Python constructor
defaults are `ints=floats=bools=False, scalars=True, simd=False`, as
reconstructed from the usage in `base.py`. -/
structure TypeSet where
  ints : Bool
  floats : Bool
  bools : Bool
  scalars : Bool
  simd : Bool
deriving DecidableEq, Repr

/-- Modelled from the spec: a `TypeVar` is either a base (free) type variable
carrying a name and its capability set, or a TypeVar derived from a parent via
the `as_bool` / `lane_of` transforms (spec sections 3, 4.1 and design note on
the tagged-variant representation `Base / AsBool / LaneOf`).  The embedding is
pure, so TypeVars are immutable by construction and the derivations cannot
mutate their parent. -/
inductive TypeVar where
  | free (name : String) (ts : TypeSet)
  | as_bool (parent : TypeVar)
  | lane_of (parent : TypeVar)
deriving DecidableEq, Repr

/-- Modelled from the spec: the capability set of a TypeVar.  A derived
TypeVar's capability set is computed deterministically from its parent:
`as_bool` keeps the parent's shape (`scalars`/`simd`) and narrows the
capability set to booleans only; `lane_of` keeps the parent's
int/float/bool capabilities and forces the scalar shape
(`scalars=True, simd=False`), as fixed by spec sections 3, 4.1 and the
testable properties of section 8. -/
def TypeVar.typeSet : TypeVar → TypeSet
  | .free _ ts => ts
  | .as_bool p =>
      let ts := p.typeSet
      ⟨false, false, true, ts.scalars, ts.simd⟩
  | .lane_of p =>
      let ts := p.typeSet
      ⟨ts.ints, ts.floats, ts.bools, true, false⟩

/-- Modelled from the spec: the free TypeVar at the root of a derivation
chain (the controlling type variable of every Operand bound to the chain). -/
def TypeVar.rootOf : TypeVar → TypeVar
  | .free n ts => .free n ts
  | .as_bool p => p.rootOf
  | .lane_of p => p.rootOf

/-- Whether a TypeVar is free (non-derived). -/
def TypeVar.isFree : TypeVar → Bool
  | .free _ _ => true
  | _ => false

-- The base TypeVars declared in `base.py` (lines 14-24, 400-402, 550-552).
-- Capability sets spell out the Python keyword arguments together with the
-- constructor defaults.

/-- `base.py` line 14: `TypeVar('Int', 'A scalar or vector integer type', ints=True, simd=True)`. -/
def Int : TypeVar := .free "Int" ⟨true, false, false, true, true⟩

/-- `base.py` line 15: `TypeVar('iB', 'A scalar integer type', ints=True)`. -/
def iB : TypeVar := .free "iB" ⟨true, false, false, true, false⟩

/-- `base.py` lines 16-18: `TypeVar('Testable', ..., ints=True, bools=True)`. -/
def Testable : TypeVar := .free "Testable" ⟨true, false, true, true, false⟩

/-- `base.py` lines 19-21: `TypeVar('TxN', ..., ints=True, floats=True, bools=True, scalars=False, simd=True)`. -/
def TxN : TypeVar := .free "TxN" ⟨true, true, true, false, true⟩

/-- `base.py` lines 22-24: `TypeVar('Any', ..., ints=True, floats=True, bools=True, scalars=True, simd=True)`. -/
def Any : TypeVar := .free "Any" ⟨true, true, true, true, true⟩

/-- `base.py` lines 400-402: `TypeVar('bits', ..., ints=True, floats=True, bools=True, scalars=True, simd=True)`. -/
def bits : TypeVar := .free "bits" ⟨true, true, true, true, true⟩

/-- `base.py` lines 550-552: `TypeVar('Float', ..., floats=True, simd=True)`. -/
def Float : TypeVar := .free "Float" ⟨false, true, false, true, true⟩

/-- Modelled from the spec: the lane kind of a concrete value type in the
external scalar/vector type catalog (spec section 6): an integer, floating
point, or boolean lane of a given bit width. -/
inductive LaneType where
  | int (bitWidth : Nat)
  | float (bitWidth : Nat)
  | bool (bitWidth : Nat)
deriving DecidableEq, Repr

/-- Modelled from the spec: a concrete scalar or vector type from the external
type catalog: a lane type and a lane count (`lanes = 1` means scalar). -/
structure ValueType where
  lane : LaneType
  lanes : Nat
deriving DecidableEq, Repr

/-- The concrete scalar type `i8` imported by `base.py` line 8. -/
def i8 : ValueType := ⟨.int 8, 1⟩

/-- The concrete scalar type `f32` imported by `base.py` line 8. -/
def f32 : ValueType := ⟨.float 32, 1⟩

/-- The concrete scalar type `f64` imported by `base.py` line 8. -/
def f64 : ValueType := ⟨.float 64, 1⟩

/-- Modelled from the spec: the concrete scalar type `i32` from the external
type catalog (used by the resolution examples of spec section 8). -/
def i32 : ValueType := ⟨.int 32, 1⟩

/-- Modelled from the spec: whether a concrete type satisfies a capability
set — its lane kind needs the matching int/float/bool flag and its shape
(scalar vs SIMD vector) needs the matching `scalars`/`simd` flag
(spec sections 3 and 4.1). -/
def TypeSet.allows (ts : TypeSet) (vt : ValueType) : Bool :=
  (match vt.lane with
   | .int _ => ts.ints
   | .float _ => ts.floats
   | .bool _ => ts.bools) &&
  (if vt.lanes == 1 then ts.scalars else ts.simd)

/-- Modelled from the spec: the immediate-operand kinds of the external
immediate catalog imported by `base.py` line 9 (spec section 6). -/
inductive ImmKind where
  | imm64
  | uimm8
  | ieee32
  | ieee64
  | immvector
  | intcc
  | floatcc
deriving DecidableEq, Repr

/-- Modelled from the spec: the entity-reference kinds of the external entity
catalog imported by `base.py` line 10 (spec section 6): an extended-basic-block
label and a jump-table reference. -/
inductive EntityKind where
  | ebb
  | jump_table
deriving DecidableEq, Repr

/-- Modelled from the spec: the kind of an Operand — exactly one of a TypeVar,
a concrete fixed type, an immediate kind, an entity-reference kind, or the
variable-arity marker `variable_args` (spec sections 3 and 4.2). -/
inductive OperandKind where
  | typevar (tv : TypeVar)
  | value (vt : ValueType)
  | imm (k : ImmKind)
  | entity (e : EntityKind)
  | variable_args
deriving DecidableEq, Repr

/-- Whether an operand kind is the variable-arity marker. -/
def OperandKind.isVariableArgs : OperandKind → Bool
  | .variable_args => true
  | _ => false

/-- Whether an operand kind is a TypeVar (the only kind that participates in
type-variable resolution, spec section 4.2). -/
def OperandKind.isTypeVarKind : OperandKind → Bool
  | .typevar _ => true
  | _ => false

/-- Whether an operand kind is an immediate or an entity reference (the kinds
excluded from type-variable resolution, spec section 4.2). -/
def OperandKind.isImmOrEntity : OperandKind → Bool
  | .imm _ => true
  | .entity _ => true
  | _ => false

/-- Modelled from the spec: an Operand binds a name and documentation to an
operand kind (spec sections 3 and 4.2).  `uid` records Python object identity:
each `Operand(...)` call in `base.py` creates a fresh object, and the
embedding gives each such creation a distinct `uid` in source order, so that
sharing of one Operand object between Instructions is representable. -/
structure Operand where
  uid : Nat
  name : String
  kind : OperandKind
  doc : String
deriving DecidableEq, Repr

/-- Modelled from the spec: a named Instruction signature — ordered input and
output Operands plus the control-flow flags (spec section 3).  Docstrings are
abbreviated to their headline. -/
structure Instruction where
  name : String
  doc : String
  ins : List Operand
  outs : List Operand
  is_terminator : Bool
  is_branch : Bool
deriving DecidableEq, Repr

/-- Modelled from the spec: the error taxonomy of spec section 7.  The
diagnostic text is not modelled, only the error class. -/
inductive Err where
  | DefinitionError
  | OperandKindError
  | TypeConstraintError
  | NoOpenGroupError
  | NestedGroupError
  | FrozenRegistryError
  | NotFoundError
deriving DecidableEq, Repr

/-- Modelled from the spec: input-operand validation — the variable-arity
marker may appear only as the final input, hence at most once
(spec sections 3 and 4.3). -/
def validIns : List Operand → Bool
  | [] => true
  | o :: rest => (rest.isEmpty || !o.kind.isVariableArgs) && validIns rest

/-- Modelled from the spec: output-operand validation — the variable-arity
marker never occurs among the outputs (spec section 4.3). -/
def validOuts (outs : List Operand) : Bool :=
  !outs.any (fun o => o.kind.isVariableArgs)

/-- Modelled from the spec: the validating `Instruction(...)` constructor.
A misplaced or repeated variable-arity marker is an operand-kind violation,
so it fails with `OperandKindError` (spec sections 4.2, 4.3 and 8). -/
def Instruction.make (name doc : String) (ins outs : List Operand)
    (isTerm isBr : Bool) : Except Err Instruction :=
  if validIns ins && validOuts outs then
    .ok ⟨name, doc, ins, outs, isTerm, isBr⟩
  else
    .error .OperandKindError

/-- Modelled from the spec: an InstructionGroup registry — name, doc, the
ordered sequence of registered Instructions, and the open/closed state
(spec sections 3 and 4.4). -/
structure InstructionGroup where
  name : String
  doc : String
  instructions : List Instruction
  isOpen : Bool
deriving DecidableEq, Repr

/-- Modelled from the spec: `InstructionGroup(name, doc)` opens a new, empty
group (spec section 4.4). -/
def InstructionGroup.create (name doc : String) : InstructionGroup :=
  ⟨name, doc, [], true⟩

/-- Modelled from the spec: registering an Instruction appends it to an open
group's ordered sequence; on a closed group it fails with
`FrozenRegistryError` (spec sections 4.3 and 4.4). -/
def InstructionGroup.register (g : InstructionGroup) (i : Instruction) :
    Except Err InstructionGroup :=
  if g.isOpen then
    .ok ⟨g.name, g.doc, g.instructions ++ [i], true⟩
  else
    .error .FrozenRegistryError

/-- Modelled from the spec: `close()` freezes the group, leaving its ordered
Instruction sequence unchanged (spec section 4.4). -/
def InstructionGroup.close (g : InstructionGroup) : InstructionGroup :=
  ⟨g.name, g.doc, g.instructions, false⟩

/-- Register a list of Instructions in order, as the module-level declaration
sequence of `base.py` does implicitly via the open group. -/
def registerAll (g : InstructionGroup) (l : List Instruction) :
    Except Err InstructionGroup :=
  l.foldlM InstructionGroup.register g

-- The Operand objects created in `base.py`.  A Python variable that is
-- rebound gets a numeric suffix per rebinding (`c1` is the `c` of line 29,
-- `c2` the `c` of line 149, ...).  `uid` is the creation index in source
-- order and stands for Python object identity.

/-- `base.py` line 29: `c = Operand('c', Testable, doc='Controlling value to test')`. -/
def c1 : Operand := ⟨0, "c", .typevar Testable, "Controlling value to test"⟩

/-- `base.py` line 30: `EBB = Operand('EBB', entities.ebb, doc=...)`. -/
def EBB1 : Operand := ⟨1, "EBB", .entity .ebb, "Destination extended basic block"⟩

/-- `base.py` line 31: `args = Operand('args', variable_args, doc='EBB arguments')`. -/
def args1 : Operand := ⟨2, "args", .variable_args, "EBB arguments"⟩

/-- `base.py` line 61: `x = Operand('x', iB, doc='index into jump table')`. -/
def x1 : Operand := ⟨3, "x", .typevar iB, "index into jump table"⟩

/-- `base.py` line 62: `JT = Operand('JT', entities.jump_table)`. -/
def JT1 : Operand := ⟨4, "JT", .entity .jump_table, ""⟩

/-- `base.py` line 102: `N = Operand('N', imm64)`. -/
def N1 : Operand := ⟨5, "N", .imm .imm64, ""⟩

/-- `base.py` line 103: `a = Operand('a', Int, doc=...)`. -/
def a1 : Operand := ⟨6, "a", .typevar Int, "A constant integer scalar or vector value"⟩

/-- `base.py` line 113: `N = Operand('N', ieee32)`. -/
def N2 : Operand := ⟨7, "N", .imm .ieee32, ""⟩

/-- `base.py` line 114: `a = Operand('a', f32, doc=...)`. -/
def a2 : Operand := ⟨8, "a", .value f32, "A constant integer scalar or vector value"⟩

/-- `base.py` line 124: `N = Operand('N', ieee64)`. -/
def N3 : Operand := ⟨9, "N", .imm .ieee64, ""⟩

/-- `base.py` line 125: `a = Operand('a', f64, doc=...)`. -/
def a3 : Operand := ⟨10, "a", .value f64, "A constant integer scalar or vector value"⟩

/-- `base.py` line 135: `N = Operand('N', immvector)`. -/
def N4 : Operand := ⟨11, "N", .imm .immvector, ""⟩

/-- `base.py` line 136: `a = Operand('a', TxN, doc='A constant vector value')`. -/
def a4 : Operand := ⟨12, "a", .typevar TxN, "A constant vector value"⟩

/-- `base.py` line 149: `c = Operand('c', Testable, doc='Controlling value to test')`. -/
def c2 : Operand := ⟨13, "c", .typevar Testable, "Controlling value to test"⟩

/-- `base.py` line 150: `x = Operand('x', Any, doc=...)`. -/
def x2 : Operand := ⟨14, "x", .typevar Any, "Value to use when `c` is true"⟩

/-- `base.py` line 151: `y = Operand('y', Any, doc=...)`. -/
def y1 : Operand := ⟨15, "y", .typevar Any, "Value to use when `c` is false"⟩

/-- `base.py` line 152: `a = Operand('a', Any)`. -/
def a5 : Operand := ⟨16, "a", .typevar Any, ""⟩

/-- `base.py` line 167: `c = Operand('c', TxN.as_bool(), doc='Controlling vector')`. -/
def c3 : Operand := ⟨17, "c", .typevar TxN.as_bool, "Controlling vector"⟩

/-- `base.py` line 168: `x = Operand('x', TxN, doc=...)`. -/
def x3 : Operand := ⟨18, "x", .typevar TxN, "Value to use where `c` is true"⟩

/-- `base.py` line 169: `y = Operand('y', TxN, doc=...)`. -/
def y2 : Operand := ⟨19, "y", .typevar TxN, "Value to use where `c` is false"⟩

/-- `base.py` line 170: `a = Operand('a', TxN)`. -/
def a6 : Operand := ⟨20, "a", .typevar TxN, ""⟩

/-- `base.py` line 181: `x = Operand('x', TxN.lane_of())`. -/
def x4 : Operand := ⟨21, "x", .typevar TxN.lane_of, ""⟩

/-- `base.py` line 191: `x = Operand('x', TxN, doc='SIMD vector to modify')`. -/
def x5 : Operand := ⟨22, "x", .typevar TxN, "SIMD vector to modify"⟩

/-- `base.py` line 192: `y = Operand('y', TxN.lane_of(), doc='New lane value')`. -/
def y3 : Operand := ⟨23, "y", .typevar TxN.lane_of, "New lane value"⟩

/-- `base.py` line 193: `Idx = Operand('Idx', uimm8, doc='Lane index')`. -/
def Idx1 : Operand := ⟨24, "Idx", .imm .uimm8, "Lane index"⟩

/-- `base.py` line 204: `x = Operand('x', TxN)`. -/
def x6 : Operand := ⟨25, "x", .typevar TxN, ""⟩

/-- `base.py` line 205: `a = Operand('a', TxN.lane_of())`. -/
def a7 : Operand := ⟨26, "a", .typevar TxN.lane_of, ""⟩

/-- `base.py` line 220: `a = Operand('a', Int.as_bool())`. -/
def a8 : Operand := ⟨27, "a", .typevar Int.as_bool, ""⟩

/-- `base.py` line 221: `Cond = Operand('Cond', intcc)`. -/
def Cond1 : Operand := ⟨28, "Cond", .imm .intcc, ""⟩

/-- `base.py` line 222: `x = Operand('x', Int)`. -/
def x7 : Operand := ⟨29, "x", .typevar Int, ""⟩

/-- `base.py` line 223: `y = Operand('y', Int)`. -/
def y4 : Operand := ⟨30, "y", .typevar Int, ""⟩

/-- `base.py` line 248: `a = Operand('a', Int)`. -/
def a9 : Operand := ⟨31, "a", .typevar Int, ""⟩

/-- `base.py` line 249: `x = Operand('x', Int)`. -/
def x8 : Operand := ⟨32, "x", .typevar Int, ""⟩

/-- `base.py` line 250: `y = Operand('y', Int)`. -/
def y5 : Operand := ⟨33, "y", .typevar Int, ""⟩

/-- `base.py` line 323: `a = Operand('a', iB)`. -/
def a10 : Operand := ⟨34, "a", .typevar iB, ""⟩

/-- `base.py` line 324: `x = Operand('x', iB)`. -/
def x9 : Operand := ⟨35, "x", .typevar iB, ""⟩

/-- `base.py` line 325: `Y = Operand('Y', imm64)`. -/
def Y1 : Operand := ⟨36, "Y", .imm .imm64, ""⟩

/-- `base.py` line 379: `X = Operand('X', imm64)`. -/
def X1 : Operand := ⟨37, "X", .imm .imm64, ""⟩

/-- `base.py` line 380: `y = Operand('y', iB)`. -/
def y6 : Operand := ⟨38, "y", .typevar iB, ""⟩

/-- `base.py` line 404: `x = Operand('x', bits)`. -/
def x10 : Operand := ⟨39, "x", .typevar bits, ""⟩

/-- `base.py` line 405: `y = Operand('y', bits)`. -/
def y7 : Operand := ⟨40, "y", .typevar bits, ""⟩

/-- `base.py` line 406: `a = Operand('a', bits)`. -/
def a11 : Operand := ⟨41, "a", .typevar bits, ""⟩

/-- `base.py` line 433: `x = Operand('x', Int, doc='Scalar or vector value to shift')`. -/
def x11 : Operand := ⟨42, "x", .typevar Int, "Scalar or vector value to shift"⟩

/-- `base.py` line 434: `y = Operand('y', iB, doc='Number of bits to shift')`. -/
def y8 : Operand := ⟨43, "y", .typevar iB, "Number of bits to shift"⟩

/-- `base.py` line 435: `a = Operand('a', Int)`. -/
def a12 : Operand := ⟨44, "a", .typevar Int, ""⟩

/-- `base.py` line 505: `x = Operand('x', iB)`. -/
def x12 : Operand := ⟨45, "x", .typevar iB, ""⟩

/-- `base.py` line 506: `a = Operand('a', i8)`. -/
def a13 : Operand := ⟨46, "a", .value i8, ""⟩

/-- `base.py` line 554: `Cond = Operand('Cond', floatcc)`. -/
def Cond2 : Operand := ⟨47, "Cond", .imm .floatcc, ""⟩

/-- `base.py` line 555: `x = Operand('x', Float)`. -/
def x13 : Operand := ⟨48, "x", .typevar Float, ""⟩

/-- `base.py` line 556: `y = Operand('y', Float)`. -/
def y9 : Operand := ⟨49, "y", .typevar Float, ""⟩

/-- `base.py` line 557: `a = Operand('a', Float.as_bool())`. -/
def a14 : Operand := ⟨50, "a", .typevar Float.as_bool, ""⟩

-- The Instructions declared in `base.py`, in declaration order.  The long
-- reStructuredText docstrings are abbreviated to their headline; operand
-- lists and flags are embedded exactly.

/-- `base.py` lines 33-41. -/
def jump : Instruction := ⟨"jump", "Jump.", [EBB1, args1], [], true, false⟩

/-- `base.py` lines 43-50. -/
def brz : Instruction := ⟨"brz", "Branch when zero.", [c1, EBB1, args1], [], false, true⟩

/-- `base.py` lines 52-59. -/
def brnz : Instruction := ⟨"brnz", "Branch when non-zero.", [c1, EBB1, args1], [], false, true⟩

/-- `base.py` lines 63-74. -/
def br_table : Instruction := ⟨"br_table", "Indirect branch via jump table.", [x1, JT1], [], false, true⟩

/-- `base.py` lines 76-80. -/
def trap : Instruction := ⟨"trap", "Terminate execution unconditionally.", [], [], true, false⟩

/-- `base.py` lines 82-88. -/
def trapz : Instruction := ⟨"trapz", "Trap when zero.", [c1], [], false, false⟩

/-- `base.py` lines 90-96. -/
def trapnz : Instruction := ⟨"trapnz", "Trap when non-zero.", [c1], [], false, false⟩

/-- `base.py` lines 104-111. -/
def iconst : Instruction := ⟨"iconst", "Integer constant.", [N1], [a1], false, false⟩

/-- `base.py` lines 115-122. -/
def f32const : Instruction := ⟨"f32const", "Floating point constant.", [N2], [a2], false, false⟩

/-- `base.py` lines 126-133. -/
def f64const : Instruction := ⟨"f64const", "Floating point constant.", [N3], [a3], false, false⟩

/-- `base.py` lines 137-143. -/
def vconst : Instruction := ⟨"vconst", "Vector constant (floating point or integer).", [N4], [a4], false, false⟩

/-- `base.py` lines 154-161. -/
def select : Instruction := ⟨"select", "Conditional select.", [c2, x2, y1], [a5], false, false⟩

/-- `base.py` lines 172-179. -/
def vselect : Instruction := ⟨"vselect", "Vector lane select.", [c3, x3, y2], [a6], false, false⟩

/-- `base.py` lines 183-189. -/
def splat : Instruction := ⟨"splat", "Vector splat.", [x4], [a6], false, false⟩

/-- `base.py` lines 195-202. -/
def insertlane : Instruction := ⟨"insertlane", "Insert `y` as lane `Idx` in x.", [x5, Idx1, y3], [a6], false, false⟩

/-- `base.py` lines 207-214. -/
def extractlane : Instruction := ⟨"extractlane", "Extract lane `Idx` from `x`.", [x6, Idx1], [a7], false, false⟩

/-- `base.py` lines 225-246. -/
def icmp : Instruction := ⟨"icmp", "Integer comparison.", [Cond1, x7, y4], [a8], false, false⟩

/-- `base.py` lines 252-259. -/
def iadd : Instruction := ⟨"iadd", "Wrapping integer addition.", [x8, y5], [a9], false, false⟩

/-- `base.py` lines 261-268. -/
def isub : Instruction := ⟨"isub", "Wrapping integer subtraction.", [x8, y5], [a9], false, false⟩

/-- `base.py` lines 270-280. -/
def imul : Instruction := ⟨"imul", "Wrapping integer multiplication.", [x8, y5], [a9], false, false⟩

/-- `base.py` lines 282-288. -/
def udiv : Instruction := ⟨"udiv", "Unsigned integer division.", [x8, y5], [a9], false, false⟩

/-- `base.py` lines 290-299. -/
def sdiv : Instruction := ⟨"sdiv", "Signed integer division rounded toward zero.", [x8, y5], [a9], false, false⟩

/-- `base.py` lines 301-307. -/
def urem : Instruction := ⟨"urem", "Unsigned integer remainder.", [x8, y5], [a9], false, false⟩

/-- `base.py` lines 309-321. -/
def srem : Instruction := ⟨"srem", "Signed integer remainder.", [x8, y5], [a9], false, false⟩

/-- `base.py` lines 327-336. -/
def iadd_imm : Instruction := ⟨"iadd_imm", "Add immediate integer.", [x9, Y1], [a10], false, false⟩

/-- `base.py` lines 338-344. -/
def imul_imm : Instruction := ⟨"imul_imm", "Integer multiplication by immediate constant.", [x9, Y1], [a10], false, false⟩

/-- `base.py` lines 346-352. -/
def udiv_imm : Instruction := ⟨"udiv_imm", "Unsigned integer division by an immediate constant.", [x9, Y1], [a10], false, false⟩

/-- `base.py` lines 354-360. -/
def sdiv_imm : Instruction := ⟨"sdiv_imm", "Signed integer division by an immediate constant.", [x9, Y1], [a10], false, false⟩

/-- `base.py` lines 362-368. -/
def urem_imm : Instruction := ⟨"urem_imm", "Unsigned integer remainder with immediate divisor.", [x9, Y1], [a10], false, false⟩

/-- `base.py` lines 370-376. -/
def srem_imm : Instruction := ⟨"srem_imm", "Signed integer remainder with immediate divisor.", [x9, Y1], [a10], false, false⟩

/-- `base.py` lines 382-393. -/
def isub_imm : Instruction := ⟨"isub_imm", "Immediate wrapping subtraction.", [X1, y6], [a10], false, false⟩

/-- `base.py` lines 408-412. -/
def band : Instruction := ⟨"band", "Bitwise and.", [x10, y7], [a11], false, false⟩

/-- `base.py` lines 414-418. -/
def bor : Instruction := ⟨"bor", "Bitwise or.", [x10, y7], [a11], false, false⟩

/-- `base.py` lines 420-424. -/
def bxor : Instruction := ⟨"bxor", "Bitwise xor.", [x10, y7], [a11], false, false⟩

/-- `base.py` lines 426-430. -/
def bnot : Instruction := ⟨"bnot", "Bitwise not.", [x10], [a11], false, false⟩

/-- `base.py` lines 437-443. -/
def rotl : Instruction := ⟨"rotl", "Rotate left.", [x11, y8], [a12], false, false⟩

/-- `base.py` lines 445-451. -/
def rotr : Instruction := ⟨"rotr", "Rotate right.", [x11, y8], [a12], false, false⟩

/-- `base.py` lines 453-469. -/
def ishl : Instruction := ⟨"ishl", "Integer shift left.", [x11, y8], [a12], false, false⟩

/-- `base.py` lines 471-487. -/
def ushr : Instruction := ⟨"ushr", "Unsigned shift right.", [x11, y8], [a12], false, false⟩

/-- `base.py` lines 489-499. -/
def sshr : Instruction := ⟨"sshr", "Signed shift right.", [x11, y8], [a12], false, false⟩

/-- `base.py` lines 508-516. -/
def clz : Instruction := ⟨"clz", "Count leading zero bits.", [x12], [a13], false, false⟩

/-- `base.py` lines 518-526. -/
def cls : Instruction := ⟨"cls", "Count leading sign bits.", [x12], [a13], false, false⟩

/-- `base.py` lines 528-536. -/
def ctz : Instruction := ⟨"ctz", "Count trailing zeros.", [x12], [a13], false, false⟩

/-- `base.py` lines 538-544. -/
def popcnt : Instruction := ⟨"popcnt", "Population count.", [x12], [a13], false, false⟩

/-- `base.py` lines 559-621. -/
def fcmp : Instruction := ⟨"fcmp", "Floating point comparison.", [Cond2, x13, y9], [a14], false, false⟩

/-- The 45 Instructions of `base.py` in declaration (= registration) order. -/
def baseInstructionList : List Instruction :=
  [jump, brz, brnz, br_table, trap, trapz, trapnz,
   iconst, f32const, f64const, vconst,
   select, vselect, splat, insertlane, extractlane,
   icmp, iadd, isub, imul, udiv, sdiv, urem, srem,
   iadd_imm, imul_imm, udiv_imm, sdiv_imm, urem_imm, srem_imm, isub_imm,
   band, bor, bxor, bnot,
   rotl, rotr, ishl, ushr, sshr,
   clz, cls, ctz, popcnt, fcmp]

/-- The module-level group of `base.py`:
`instructions = InstructionGroup("base", "Shared base instruction set")`
(line 12), every Instruction registering into it in declaration order, and
`instructions.close()` (line 623). -/
def instructions : Except Err InstructionGroup :=
  (registerAll (InstructionGroup.create "base" "Shared base instruction set")
      baseInstructionList).map InstructionGroup.close

-- The float-comparison-code catalog.  The enumeration itself lives in the
-- external `immediates` module, but its full member table is reproduced in
-- the `fcmp` docstring of `base.py` (lines 580-596), which is embedded here.

/-- The four mutually exclusive ways two IEEE 754 numbers relate to each
other, per the `fcmp` docstring of `base.py` (lines 566-571). -/
inductive FloatRel where
  | UN
  | EQ
  | LT
  | GT
deriving DecidableEq, Repr

/-- The 14 members of the float-comparison-code enumeration `floatcc`,
per the `fcmp` docstring of `base.py` (lines 580-596). -/
inductive FloatCC where
  | ord
  | uno
  | eq
  | ueq
  | one
  | ne
  | lt
  | ult
  | le
  | ule
  | gt
  | ugt
  | ge
  | uge
deriving DecidableEq, Repr

/-- The members of `floatcc` as a list (7 ordered conditions, then their 7
unordered counterparts would interleave in the docstring table; this list
follows the claim's enumeration order). -/
def FloatCC.all : List FloatCC :=
  [.ord, .uno, .eq, .ueq, .one, .ne, .lt, .ult, .le, .ule, .gt, .ugt, .ge, .uge]

/-- The subset of the four relations each `floatcc` condition code
corresponds to, embedded from the table in the `fcmp` docstring of
`base.py` (lines 580-596). -/
def FloatCC.rels : FloatCC → List FloatRel
  | .ord => [.EQ, .LT, .GT]
  | .uno => [.UN]
  | .eq => [.EQ]
  | .ueq => [.UN, .EQ]
  | .one => [.LT, .GT]
  | .ne => [.UN, .LT, .GT]
  | .lt => [.LT]
  | .ult => [.UN, .LT]
  | .le => [.LT, .EQ]
  | .ule => [.UN, .LT, .EQ]
  | .gt => [.GT]
  | .ugt => [.UN, .GT]
  | .ge => [.GT, .EQ]
  | .uge => [.UN, .GT, .EQ]

-- Type-variable resolution.  The resolver is part of the framework contract
-- (spec section 4.1), not of the `base.py` slice, so it is modelled from the
-- spec's description.

/-- Bit width of a lane type. -/
def laneBits : LaneType → Nat
  | .int b => b
  | .float b => b
  | .bool b => b

/-- Modelled from the spec: the concrete type a derived TypeVar resolves to
once its controlling (root) TypeVar is bound to a concrete type
(spec section 4.1): an `as_bool` view resolves to a boolean type of the same
lane count (lanes keep their width; a scalar becomes the scalar boolean
`b1`), and a `lane_of` view resolves to the scalar lane type. -/
def applyDerivation : TypeVar → ValueType → ValueType
  | .free _ _, vt => vt
  | .as_bool p, vt =>
      let v := applyDerivation p vt
      ⟨.bool (if v.lanes == 1 then 1 else laneBits v.lane), v.lanes⟩
  | .lane_of p, vt =>
      let v := applyDerivation p vt
      ⟨v.lane, 1⟩

/-- Modelled from the spec: the first resolution pass (spec section 4.1).
Walking the input Operands in order, every Operand bound to a free TypeVar
and given a concrete binding makes that TypeVar controlling: the concrete
type must satisfy the TypeVar's capability set, and every later Operand
bound (by identity) to the same TypeVar must carry the identical concrete
type — otherwise resolution fails with `TypeConstraintError`.  Operands of
immediate, entity, concrete-type or variable-arity kind take no part, and an
Operand without a binding imposes no constraint. -/
def bindFrees (bindings : List (String × ValueType)) :
    List Operand → List (TypeVar × ValueType) →
    Except Err (List (TypeVar × ValueType))
  | [], asg => .ok asg
  | o :: rest, asg =>
    match o.kind with
    | .typevar (.free n ts) =>
      match bindings.lookup o.name with
      | none => bindFrees bindings rest asg
      | some vt =>
        match asg.lookup (TypeVar.free n ts) with
        | some vt' =>
          if vt == vt' then bindFrees bindings rest asg
          else .error .TypeConstraintError
        | none =>
          if ts.allows vt then
            bindFrees bindings rest (asg ++ [(TypeVar.free n ts, vt)])
          else .error .TypeConstraintError
    | _ => bindFrees bindings rest asg

/-- Modelled from the spec: the second resolution pass (spec section 4.1).
Every input Operand bound to a derived TypeVar and given a concrete binding
must resolve to exactly the derived concrete type computed from its
controlling TypeVar's binding, else `TypeConstraintError`. -/
def checkDerived (bindings : List (String × ValueType))
    (asg : List (TypeVar × ValueType)) : List Operand → Except Err Unit
  | [] => .ok ()
  | o :: rest =>
    match o.kind with
    | .typevar tv =>
      if tv.isFree then checkDerived bindings asg rest
      else
        match bindings.lookup o.name with
        | none => checkDerived bindings asg rest
        | some vt =>
          match asg.lookup tv.rootOf with
          | none => .error .TypeConstraintError
          | some root =>
            if applyDerivation tv root == vt then checkDerived bindings asg rest
            else .error .TypeConstraintError
    | _ => checkDerived bindings asg rest

/-- Modelled from the spec: the concrete type of one output Operand, given
the controlling-TypeVar assignment (spec section 4.1).  A concrete-typed
output is itself; a TypeVar output resolves through its controlling TypeVar,
which must be bound. -/
def resolveOut (asg : List (TypeVar × ValueType)) (o : Operand) :
    Except Err (String × ValueType) :=
  match o.kind with
  | .value vt => .ok (o.name, vt)
  | .typevar tv =>
    match asg.lookup tv.rootOf with
    | some root => .ok (o.name, applyDerivation tv root)
    | none => .error .TypeConstraintError
  | _ => .error .OperandKindError

/-- Modelled from the spec: resolving an Instruction against concrete operand
bindings, named by Operand name (spec sections 4.1 and 8): bind the
controlling TypeVars from the inputs, check derived inputs, then compute the
output types. -/
def Instruction.resolve (inst : Instruction)
    (bindings : List (String × ValueType)) :
    Except Err (List (String × ValueType)) := do
  let asg ← bindFrees bindings inst.ins []
  checkDerived bindings asg inst.ins
  inst.outs.mapM (resolveOut asg)

-- Helper lemmas.

/-- Registering a list of Instructions into an open group always succeeds and
appends them in order. -/
theorem registerAll_open (l : List Instruction) :
    ∀ g : InstructionGroup, g.isOpen = true →
      registerAll g l = Except.ok ⟨g.name, g.doc, g.instructions ++ l, true⟩ := by
  induction l with
  | nil =>
      intro g h
      obtain ⟨n, d, li, op⟩ := g
      simp only [InstructionGroup.isOpen] at h
      subst h
      simp only [registerAll, List.foldlM_nil, List.append_nil]
      rfl
  | cons i rest ih =>
      intro g h
      obtain ⟨n, d, li, op⟩ := g
      simp only [InstructionGroup.isOpen] at h
      subst h
      have step := ih ⟨n, d, li ++ [i], true⟩ rfl
      simp only [registerAll, List.foldlM_cons, InstructionGroup.register] at step ⊢
      simp only [if_pos] at step ⊢
      rw [show (Except.ok ⟨n, d, li ++ [i], true⟩ :
            Except Err InstructionGroup) >>= (fun g' =>
              List.foldlM InstructionGroup.register g' rest) =
          List.foldlM InstructionGroup.register ⟨n, d, li ++ [i], true⟩ rest
        from rfl]
      rw [step]
      simp

/-- Every instruction of `base.py` passes the constructor validation. -/
theorem base_instructions_valid :
    baseInstructionList.all (fun i => validIns i.ins && validOuts i.outs) = true := by
  decide

/-- C1: iterating a closed InstructionGroup reproduces registration order
exactly (registering any declaration list into a fresh group and closing it
yields exactly that list back), and the closed `base` group yields the 45
instructions jump ... fcmp in declaration order. -/
theorem base_group_declaration_order :
    (∀ (name doc : String) (l : List Instruction),
        (registerAll (InstructionGroup.create name doc) l).map
          (fun g => (InstructionGroup.close g).instructions) = Except.ok l) ∧
    instructions.map (fun g => g.instructions.map Instruction.name) =
      Except.ok ["jump", "brz", "brnz", "br_table", "trap", "trapz", "trapnz",
        "iconst", "f32const", "f64const", "vconst",
        "select", "vselect", "splat", "insertlane", "extractlane",
        "icmp", "iadd", "isub", "imul", "udiv", "sdiv", "urem", "srem",
        "iadd_imm", "imul_imm", "udiv_imm", "sdiv_imm", "urem_imm", "srem_imm",
        "isub_imm", "band", "bor", "bxor", "bnot",
        "rotl", "rotr", "ishl", "ushr", "sshr",
        "clz", "cls", "ctz", "popcnt", "fcmp"] := by
  constructor
  · intro name doc l
    rw [registerAll_open l (InstructionGroup.create name doc) rfl]
    rfl
  · rfl

/-- C2: on any group frozen by `close()`, registering a further Instruction
fails with `FrozenRegistryError`, and closing leaves the ordered instruction
sequence unchanged (and, the model being pure, nothing can alter it
afterwards). -/
theorem register_after_close_frozen :
    ∀ (g : InstructionGroup) (i : Instruction),
      (InstructionGroup.close g).register i =
        Except.error Err.FrozenRegistryError ∧
      (InstructionGroup.close g).instructions = g.instructions := by
  intro g i
  exact ⟨rfl, rfl⟩

/-- C3: for every SIMD TypeVar `t`, `t.lane_of` has `simd = false`,
`scalars = true`, and the same int/float/bool capabilities as `t`.  The
embedding is pure, so `lane_of` cannot mutate its receiver. -/
theorem lane_of_capabilities (t : TypeVar) (_h : t.typeSet.simd = true) :
    (TypeVar.lane_of t).typeSet.simd = false ∧
    (TypeVar.lane_of t).typeSet.scalars = true ∧
    (TypeVar.lane_of t).typeSet.ints = t.typeSet.ints ∧
    (TypeVar.lane_of t).typeSet.floats = t.typeSet.floats ∧
    (TypeVar.lane_of t).typeSet.bools = t.typeSet.bools :=
  ⟨rfl, rfl, rfl, rfl, rfl⟩

/-- Witness for C3 at the SIMD TypeVar `TxN` of `base.py`. -/
theorem lane_of_capabilities_witness :
    TxN.typeSet.simd = true ∧
    ((TypeVar.lane_of TxN).typeSet.simd = false ∧
     (TypeVar.lane_of TxN).typeSet.scalars = true ∧
     (TypeVar.lane_of TxN).typeSet.ints = TxN.typeSet.ints ∧
     (TypeVar.lane_of TxN).typeSet.floats = TxN.typeSet.floats ∧
     (TypeVar.lane_of TxN).typeSet.bools = TxN.typeSet.bools) :=
  ⟨rfl, lane_of_capabilities TxN rfl⟩

/-- C4: for every TypeVar `t`, `t.as_bool` keeps `t`'s shape capabilities
(`scalars`/`simd`) and allows only booleans, and `t.as_bool.as_bool` has a
capability set identical to `t.as_bool` (idempotent up to capability set).
Derivation is a pure function of the parent, so repeated calls yield equal
derived TypeVars and cannot mutate the parent. -/
theorem as_bool_idempotent (t : TypeVar) :
    (TypeVar.as_bool t).typeSet.scalars = t.typeSet.scalars ∧
    (TypeVar.as_bool t).typeSet.simd = t.typeSet.simd ∧
    (TypeVar.as_bool t).typeSet.ints = false ∧
    (TypeVar.as_bool t).typeSet.floats = false ∧
    (TypeVar.as_bool t).typeSet.bools = true ∧
    (TypeVar.as_bool (TypeVar.as_bool t)).typeSet =
      (TypeVar.as_bool t).typeSet :=
  ⟨rfl, rfl, rfl, rfl, rfl, rfl⟩

/-- C5: resolving `select` (`base.py` lines 154-161) against the concrete
bindings `c=i32, x=i32, y=i32` yields the output `a=i32`, while the
mismatched free-TypeVar bindings `x=i32, y=f32` (both Operands are bound to
the TypeVar `Any` by identity) fail with `TypeConstraintError`. -/
theorem select_resolution :
    select.resolve [("c", i32), ("x", i32), ("y", i32)] =
      Except.ok [("a", i32)] ∧
    select.resolve [("x", i32), ("y", f32)] =
      Except.error Err.TypeConstraintError :=
  ⟨rfl, rfl⟩

/-- C6: the float-comparison-code enumeration has exactly 14 members — no
more (`FloatCC.all` is complete and duplicate-free) — and each maps to
exactly the subset of `{UN, EQ, LT, GT}` given by the table in the `fcmp`
docstring: ord=EQ|LT|GT, uno=UN, eq=EQ, ueq=UN|EQ, one=LT|GT, ne=UN|LT|GT,
lt=LT, ult=UN|LT, le=LT|EQ, ule=UN|LT|EQ, gt=GT, ugt=UN|GT, ge=GT|EQ,
uge=UN|GT|EQ. -/
theorem floatcc_table :
    FloatCC.all.length = 14 ∧
    FloatCC.all.Nodup ∧
    (∀ cc : FloatCC, cc ∈ FloatCC.all) ∧
    FloatCC.rels .ord = [.EQ, .LT, .GT] ∧
    FloatCC.rels .uno = [.UN] ∧
    FloatCC.rels .eq = [.EQ] ∧
    FloatCC.rels .ueq = [.UN, .EQ] ∧
    FloatCC.rels .one = [.LT, .GT] ∧
    FloatCC.rels .ne = [.UN, .LT, .GT] ∧
    FloatCC.rels .lt = [.LT] ∧
    FloatCC.rels .ult = [.UN, .LT] ∧
    FloatCC.rels .le = [.LT, .EQ] ∧
    FloatCC.rels .ule = [.UN, .LT, .EQ] ∧
    FloatCC.rels .gt = [.GT] ∧
    FloatCC.rels .ugt = [.UN, .GT] ∧
    FloatCC.rels .ge = [.GT, .EQ] ∧
    FloatCC.rels .uge = [.UN, .GT, .EQ] := by
  refine ⟨rfl, by decide, ?_, rfl, rfl, rfl, rfl, rfl, rfl, rfl, rfl, rfl,
    rfl, rfl, rfl, rfl, rfl⟩
  intro cc
  cases cc <;> decide

/-- In a valid input-operand list, a variable-arity Operand can only sit in
the last position. -/
theorem validIns_variadic_last (l : List Operand) (hv : validIns l = true) :
    ∀ i : Fin l.length, (l.get i).kind.isVariableArgs = true →
      i.val + 1 = l.length := by
  induction l with
  | nil => exact fun i => absurd i.isLt (by simp)
  | cons o rest ih =>
      intro i hvar
      simp only [validIns, Bool.and_eq_true, Bool.or_eq_true] at hv
      obtain ⟨h1, h2⟩ := hv
      obtain ⟨iv, hlt⟩ := i
      cases iv with
      | zero =>
          have hvar0 : o.kind.isVariableArgs = true := hvar
          rcases h1 with he | hn
          · cases rest with
            | nil => simp
            | cons r rs => simp [List.isEmpty] at he
          · rw [hvar0] at hn
            simp at hn
      | succ j =>
          have hjlt : j < rest.length := by
            simpa [Nat.succ_lt_succ_iff] using hlt
          have hj := ih h2 ⟨j, hjlt⟩ (by exact hvar)
          simp only [Fin.val_mk] at hj
          simp only [List.length_cons]
          omega

/-- C7: the variable-arity marker may occur at most once among the inputs,
only in final position, and never among the outputs: constructing an
Instruction with two variable-arity inputs, with a variable-arity input not
in last position, or with a variable-arity output fails with
`OperandKindError`. -/
theorem make_rejects_misplaced_variadic
    (name doc : String) (ins outs : List Operand) (t b : Bool)
    (h : (∃ i j : Fin ins.length, i ≠ j ∧
            (ins.get i).kind.isVariableArgs = true ∧
            (ins.get j).kind.isVariableArgs = true) ∨
         (∃ i : Fin ins.length, i.val + 1 < ins.length ∧
            (ins.get i).kind.isVariableArgs = true) ∨
         (∃ i : Fin outs.length, (outs.get i).kind.isVariableArgs = true)) :
    Instruction.make name doc ins outs t b =
      Except.error Err.OperandKindError := by
  have hbad : (validIns ins && validOuts outs) = false := by
    rcases h with ⟨i, j, hij, hi, hj⟩ | ⟨i, hlt, hi⟩ | ⟨i, hi⟩
    · cases hv : validIns ins with
      | false => simp [hv]
      | true =>
          exfalso
          have e1 := validIns_variadic_last ins hv i hi
          have e2 := validIns_variadic_last ins hv j hj
          exact hij (Fin.ext (by omega))
    · cases hv : validIns ins with
      | false => simp [hv]
      | true =>
          exfalso
          have := validIns_variadic_last ins hv i hi
          omega
    · have hout : validOuts outs = false := by
        simp only [validOuts, Bool.not_eq_false', List.any_eq_true]
        exact ⟨outs.get i, List.get_mem outs i.val i.isLt, hi⟩
      simp [hout]
  simp [Instruction.make, hbad]

/-- Witness for C7: building an instruction whose variable-arity operand
`args` (from `base.py` line 31) is followed by a further input fails with
`OperandKindError`. -/
theorem make_rejects_misplaced_variadic_witness :
    Instruction.make "bad" "" [args1, c1] [] false false =
      Except.error Err.OperandKindError :=
  make_rejects_misplaced_variadic "bad" "" [args1, c1] [] false false
    (Or.inr (Or.inl ⟨⟨0, by decide⟩, by decide, by decide⟩))

/-- C8 counterexample: the Operand object `EBB` created at `base.py` line 30
(`uid = 1`) appears in the input lists of the two distinct Instructions
`jump` and `brz` of the base group, so Operands are not owned by exactly one
Instruction. -/
theorem operand_shared_by_two_instructions :
    jump ∈ baseInstructionList ∧
    brz ∈ baseInstructionList ∧
    jump ≠ brz ∧
    EBB1 ∈ jump.ins ∧
    EBB1 ∈ brz.ins := by
  decide

/-- C8 amended: Operand objects are shared across Instructions in `base.py`:
`c`, `EBB` and `args` are reused by the control-flow instructions, and the
integer-arithmetic instructions `iadd` through `srem` all use the very same
`x`, `y` and `a` Operand objects (which in turn share the TypeVar `Int` by
reference). -/
theorem operand_sharing_in_base :
    (EBB1 ∈ jump.ins ∧ EBB1 ∈ brz.ins ∧ EBB1 ∈ brnz.ins) ∧
    (args1 ∈ jump.ins ∧ args1 ∈ brz.ins ∧ args1 ∈ brnz.ins) ∧
    (c1 ∈ brz.ins ∧ c1 ∈ brnz.ins ∧ c1 ∈ trapz.ins ∧ c1 ∈ trapnz.ins) ∧
    ([iadd, isub, imul, udiv, sdiv, urem, srem].all
        (fun i => i.ins == [x8, y5] && i.outs == [a9]) = true) ∧
    (x8.kind = .typevar Int ∧ y5.kind = .typevar Int ∧ a9.kind = .typevar Int) ∧
    jump ≠ brz ∧ brz ≠ brnz ∧ brz ≠ trapz ∧
    iadd ≠ isub ∧ isub ≠ imul := by
  decide

/-- The first resolution pass never consults Operands of immediate or entity
kind: filtering them out of the input list leaves `bindFrees` unchanged. -/
theorem bindFrees_skips_imm_entity (b : List (String × ValueType))
    (l : List Operand) :
    ∀ asg, bindFrees b (l.filter (fun o => !o.kind.isImmOrEntity)) asg =
      bindFrees b l asg := by
  induction l with
  | nil => intro asg; rfl
  | cons o rest ih =>
      intro asg
      obtain ⟨u, nm, k, d⟩ := o
      cases k with
      | typevar tv =>
          cases tv with
          | free n ts =>
              cases hb : b.lookup nm with
              | none =>
                  simp only [List.filter_cons, OperandKind.isImmOrEntity,
                    Bool.not_false, if_true, bindFrees, hb]
                  exact ih asg
              | some vt =>
                  cases ha : asg.lookup (TypeVar.free n ts) with
                  | some vt' =>
                      cases heq : (vt == vt') with
                      | true =>
                          simp only [List.filter_cons, OperandKind.isImmOrEntity,
                            Bool.not_false, if_true, bindFrees, hb, ha, heq,
                            if_true]
                          exact ih asg
                      | false =>
                          simp only [List.filter_cons, OperandKind.isImmOrEntity,
                            Bool.not_false, if_true, bindFrees, hb, ha, heq,
                            Bool.false_eq_true, if_false]
                  | none =>
                      cases hal : ts.allows vt with
                      | true =>
                          simp only [List.filter_cons, OperandKind.isImmOrEntity,
                            Bool.not_false, if_true, bindFrees, hb, ha, hal,
                            if_true]
                          exact ih _
                      | false =>
                          simp only [List.filter_cons, OperandKind.isImmOrEntity,
                            Bool.not_false, if_true, bindFrees, hb, ha, hal,
                            Bool.false_eq_true, if_false]
          | as_bool p => exact ih asg
          | lane_of p => exact ih asg
      | value vt => exact ih asg
      | imm ik => exact ih asg
      | entity ek => exact ih asg
      | variable_args => exact ih asg

/-- The second resolution pass never consults Operands of immediate or entity
kind either. -/
theorem checkDerived_skips_imm_entity (b : List (String × ValueType))
    (asg : List (TypeVar × ValueType)) (l : List Operand) :
    checkDerived b asg (l.filter (fun o => !o.kind.isImmOrEntity)) =
      checkDerived b asg l := by
  induction l with
  | nil => rfl
  | cons o rest ih =>
      obtain ⟨u, nm, k, d⟩ := o
      cases k with
      | typevar tv =>
          cases tv with
          | free n ts => exact ih
          | as_bool p =>
              cases hb : b.lookup nm with
              | none =>
                  simp only [List.filter_cons, OperandKind.isImmOrEntity,
                    Bool.not_false, if_true, checkDerived, TypeVar.isFree, hb]
                  exact ih
              | some vt =>
                  cases ha : asg.lookup (TypeVar.as_bool p).rootOf with
                  | none =>
                      simp only [List.filter_cons, OperandKind.isImmOrEntity,
                        Bool.not_false, if_true, checkDerived, TypeVar.isFree,
                        hb, ha, Bool.false_eq_true, if_false]
                  | some root =>
                      cases heq : (applyDerivation (TypeVar.as_bool p) root == vt) with
                      | true =>
                          simp only [List.filter_cons, OperandKind.isImmOrEntity,
                            Bool.not_false, if_true, checkDerived,
                            TypeVar.isFree, hb, ha, heq, if_true]
                          exact ih
                      | false =>
                          simp only [List.filter_cons, OperandKind.isImmOrEntity,
                            Bool.not_false, if_true, checkDerived,
                            TypeVar.isFree, hb, ha, heq, Bool.false_eq_true,
                            if_false]
          | lane_of p =>
              cases hb : b.lookup nm with
              | none =>
                  simp only [List.filter_cons, OperandKind.isImmOrEntity,
                    Bool.not_false, if_true, checkDerived, TypeVar.isFree, hb]
                  exact ih
              | some vt =>
                  cases ha : asg.lookup (TypeVar.lane_of p).rootOf with
                  | none =>
                      simp only [List.filter_cons, OperandKind.isImmOrEntity,
                        Bool.not_false, if_true, checkDerived, TypeVar.isFree,
                        hb, ha, Bool.false_eq_true, if_false]
                  | some root =>
                      cases heq : (applyDerivation (TypeVar.lane_of p) root == vt) with
                      | true =>
                          simp only [List.filter_cons, OperandKind.isImmOrEntity,
                            Bool.not_false, if_true, checkDerived,
                            TypeVar.isFree, hb, ha, heq, if_true]
                          exact ih
                      | false =>
                          simp only [List.filter_cons, OperandKind.isImmOrEntity,
                            Bool.not_false, if_true, checkDerived,
                            TypeVar.isFree, hb, ha, heq, Bool.false_eq_true,
                            if_false]
      | value vt => exact ih
      | imm ik => exact ih
      | entity ek => exact ih
      | variable_args => exact ih

/-- C9 counterexample: `iconst` and `vconst` have polymorphic outputs
(TypeVars `Int` resp. `TxN`) while every one of their input Operands is of
immediate kind, so their output type is not determined by any non-immediate,
non-entity input. -/
theorem imm_justified_output_counterexample :
    iconst ∈ baseInstructionList ∧
    iconst.ins.all (fun o => o.kind.isImmOrEntity) = true ∧
    iconst.outs = [a1] ∧ a1.kind = .typevar Int ∧
    vconst ∈ baseInstructionList ∧
    vconst.ins.all (fun o => o.kind.isImmOrEntity) = true ∧
    vconst.outs = [a4] ∧ a4.kind = .typevar TxN := by
  decide

/-- C9 amended: Operands of immediate or entity kind are excluded from
type-variable resolution — dropping them from an instruction's inputs never
changes the result of `resolve` — but an Instruction's polymorphic output
need not be determined by an input: in the base group every TypeVar-kinded
output either shares its controlling (root) TypeVar with some TypeVar-kinded
input, or the instruction has no TypeVar-kinded input at all; the latter
happens exactly for `iconst` and `vconst`, whose polymorphic outputs are
justified only by immediate operands. -/
theorem imm_entity_excluded_from_resolution :
    (∀ (inst : Instruction) (b : List (String × ValueType)),
        Instruction.resolve
          ⟨inst.name, inst.doc,
            inst.ins.filter (fun o => !o.kind.isImmOrEntity),
            inst.outs, inst.is_terminator, inst.is_branch⟩ b =
          inst.resolve b) ∧
    (baseInstructionList.all (fun i =>
        i.outs.all (fun o =>
          match o.kind with
          | .typevar tv =>
              i.ins.any (fun oi =>
                match oi.kind with
                | .typevar tv' => tv'.rootOf == tv.rootOf
                | _ => false) ||
              i.ins.all (fun oi => !oi.kind.isTypeVarKind)
          | _ => true)) = true) ∧
    ((baseInstructionList.filter (fun i =>
        i.outs.any (fun o => o.kind.isTypeVarKind) &&
        i.ins.all (fun oi => !oi.kind.isTypeVarKind))).map Instruction.name =
      ["iconst", "vconst"]) := by
  refine ⟨?_, by decide, by decide⟩
  intro inst b
  simp only [Instruction.resolve, bindFrees_skips_imm_entity,
    checkDerived_skips_imm_entity]

/-- C10: in the base group, `jump` and `trap` are exactly the instructions
with `is_terminator = True`, `brz`, `brnz` and `br_table` exactly those with
`is_branch = True`, and no instruction has both flags set (every other
instruction has both flags False). -/
theorem control_flow_flags :
    (baseInstructionList.filter (fun i => i.is_terminator)).map
      Instruction.name = ["jump", "trap"] ∧
    (baseInstructionList.filter (fun i => i.is_branch)).map
      Instruction.name = ["brz", "brnz", "br_table"] ∧
    baseInstructionList.all (fun i => !(i.is_terminator && i.is_branch)) =
      true :=
  ⟨rfl, rfl, rfl⟩

end Cretonne
